import Mathlib

/-!
Shallow embedding of the unichain-wallet-kit session layer.

The embedding covers:
* the shared wallet state and storage helpers of `src/core/adapter.ts`
  (`WalletState`, `DEFAULT_WALLET_STATE`, `getStorageItem`, `setStorageItem`,
  `removeStorageItem`, `formatAddress`);
* the unified provider of the unnamed part file (`UnifiedWalletProvider`:
  `connect`, `disconnect`, `switchChain`, `signMessage`, `sendTransaction`,
  the auto-connect effect, and its own `formatAddress`);
* the core provider of `src/core/provider.tsx` (`WalletProvider`: `connect`,
  `disconnect`, `switchChain`, `signMessage`, `sendTransaction`, and its
  auto-connect effect, which reads `localStorage` directly).

TypeScript string unions are erased at runtime, so `ChainType` is embedded as
`String` with the canonical values such as "evm", "solana", "ton"; the
unchecked `as ChainType | null` casts in the source are then identities.
`localStorage` is embedded as an association list inside a `Backend` that can
be absent (`window` undefined, i.e. a non-browser context) or raising
(`failing = true`, every access throws); throwing JavaScript calls are
embedded as `Except String`.  React `setState(prev => ...)` updater queues
inside one handler apply in order, so they are embedded as sequential pure
record updates.  Callback invocations (`onDisconnect`, `onError`) and issued
storage calls are recorded in an `Effect` trace.
-/

/-- `ChainType = 'evm' | 'solana' | 'ton'` is a string at runtime. -/
abbrev ChainType := String

/-- `chainId: string | number | null` — the non-null payload. -/
inductive ChainId where
  | num : Int → ChainId
  | str : String → ChainId
  deriving DecidableEq

/-- `WalletState` from `src/core/adapter.ts`. -/
structure WalletState where
  isConnected : Bool
  address : Option String
  chain : Option ChainType
  chainId : Option ChainId
  balance : Option String
  isConnecting : Bool
  error : Option String
  deriving DecidableEq

/-- `DEFAULT_WALLET_STATE` / `DEFAULT_STATE`: all fields unset. -/
def DEFAULT_WALLET_STATE : WalletState :=
  { isConnected := false, address := none, chain := none, chainId := none
    balance := none, isConnecting := false, error := none }

/-- A live `localStorage` backend: its key-value items, plus whether every
access raises (quota/security errors), and the raised error message. -/
structure Backend where
  items : List (String × String)
  failing : Bool
  failMsg : String
  deriving DecidableEq

/-- The JavaScript environment: `window` (and with it `localStorage`) may be
absent, as in server-side rendering. -/
structure JsEnv where
  window : Option Backend
  deriving DecidableEq

namespace JsStore

/-- Raw key lookup in the backing association list. -/
def get (items : List (String × String)) (key : String) : Option String :=
  (items.find? (fun kv => kv.1 == key)).map (fun kv => kv.2)

/-- `setItem` semantics: replace any existing binding for `key`. -/
def set (items : List (String × String)) (key value : String) :
    List (String × String) :=
  (key, value) :: items.filter (fun kv => kv.1 != key)

/-- `removeItem` semantics: drop every binding for `key`. -/
def remove (items : List (String × String)) (key : String) :
    List (String × String) :=
  items.filter (fun kv => kv.1 != key)

end JsStore

/-- `localStorage.getItem(key)`: throws when the backend is failing. -/
def localStorage.getItem (b : Backend) (key : String) :
    Except String (Option String) :=
  if b.failing then .error b.failMsg else .ok (JsStore.get b.items key)

/-- `localStorage.setItem(key, value)`: throws when the backend is failing. -/
def localStorage.setItem (b : Backend) (key value : String) :
    Except String Backend :=
  if b.failing then .error b.failMsg
  else .ok { b with items := JsStore.set b.items key value }

/-- `localStorage.removeItem(key)`: throws when the backend is failing. -/
def localStorage.removeItem (b : Backend) (key : String) :
    Except String Backend :=
  if b.failing then .error b.failMsg
  else .ok { b with items := JsStore.remove b.items key }

/-- `getStorageItem` from `src/core/adapter.ts`: `null` without `window`,
and a try/catch that turns any storage error into `null`. -/
def getStorageItem (env : JsEnv) (key : String) : Except String (Option String) :=
  match env.window with
  | none => .ok none
  | some b =>
    match localStorage.getItem b key with
    | .ok v => .ok v
    | .error _ => .ok none

/-- `setStorageItem` from `src/core/adapter.ts`: no-op without `window`,
storage errors are caught and ignored. -/
def setStorageItem (env : JsEnv) (key value : String) : Except String JsEnv :=
  match env.window with
  | none => .ok env
  | some b =>
    match localStorage.setItem b key value with
    | .ok b2 => .ok { window := some b2 }
    | .error _ => .ok env

/-- `removeStorageItem` from `src/core/adapter.ts`: no-op without `window`,
storage errors are caught and ignored. -/
def removeStorageItem (env : JsEnv) (key : String) : Except String JsEnv :=
  match env.window with
  | none => .ok env
  | some b =>
    match localStorage.removeItem b key with
    | .ok b2 => .ok { window := some b2 }
    | .error _ => .ok env

/-- The value actually produced by `getStorageItem` (it never throws;
the `.error` arm is unreachable). -/
def getStorageItemRun (env : JsEnv) (key : String) : Option String :=
  match getStorageItem env key with
  | .ok v => v
  | .error _ => none

/-- The environment actually produced by `setStorageItem`. -/
def setStorageItemRun (env : JsEnv) (key value : String) : JsEnv :=
  match setStorageItem env key value with
  | .ok e => e
  | .error _ => env

/-- The environment actually produced by `removeStorageItem`. -/
def removeStorageItemRun (env : JsEnv) (key : String) : JsEnv :=
  match removeStorageItem env key with
  | .ok e => e
  | .error _ => env

/-- JavaScript truthiness of a `string | null | undefined` value:
`null`, `undefined` and the empty string are falsy. -/
def truthyStr : Option String → Bool
  | none => false
  | some s => s != ""

/-- `s.slice(0, n)` for `n ≥ 0`. -/
def jsSliceFrom0 (l : List Char) (n : Nat) : List Char := l.take n

/-- `s.slice(-n)` for `n ≥ 0`: the last `n` characters, except that
`slice(-0) = slice(0)` is the whole string. -/
def jsSliceNeg (l : List Char) (n : Nat) : List Char :=
  if n = 0 then l else l.drop (l.length - n)

/-- The literal `...` infix of the truncated display string. -/
def dotsChars : List Char := ['.', '.', '.']

/-- `formatAddress` from `src/core/adapter.ts`: empty in, empty out; short
addresses (length at most `chars * 2`) returned unchanged; otherwise a
`chars`-character head, `...`, and a `chars`-character tail. -/
def formatAddress (address : List Char) (chars : Nat) : List Char :=
  if address = [] then []
  else if address.length ≤ chars * 2 then address
  else jsSliceFrom0 address chars ++ dotsChars ++ jsSliceNeg address chars

/-- Observable calls issued by the providers: storage-helper invocations and
configured callback invocations.  Neither provider ever calls `onConnect`,
and neither ever calls any adapter method, so no such effects exist. -/
inductive Effect where
  | storeSet (key value : String)
  | storeRemove (key : String)
  | cbDisconnect
  | cbError (msg : String)
  deriving DecidableEq

/-- Props of `UnifiedWalletProvider` that its handlers read (callbacks are
traced as effects; the `enable*` flags are never read by the handlers). -/
structure UnifiedConfig where
  autoConnect : Bool
  storageKey : String
  defaultChain : ChainType
  deriving DecidableEq

/-- React state of `UnifiedWalletProvider`: the `WalletState`, the
`activeChain` cell, and the three per-chain connection flags. -/
structure UnifiedState where
  state : WalletState
  activeChain : Option ChainType
  evmConnected : Bool
  solanaConnected : Bool
  tonConnected : Bool
  deriving DecidableEq

/-- The provider mounts with `DEFAULT_STATE`, no active chain, and all
per-chain flags down. -/
def UnifiedState.init : UnifiedState :=
  { state := DEFAULT_WALLET_STATE, activeChain := none
    evmConnected := false, solanaConnected := false, tonConnected := false }

/-- `chain || defaultChain`: JavaScript `||` takes the default on any falsy
chain value (absent argument or empty string). -/
def jsOrChain (chain : Option ChainType) (d : ChainType) : ChainType :=
  match chain with
  | some c => if c = "" then d else c
  | none => d

namespace UnifiedWalletProvider

/-- The `useEffect` deriving `isConnected` from the three per-chain flags;
it re-runs whenever one of the flags changes. -/
def syncIsConnected (p : UnifiedState) : UnifiedState :=
  { p with state :=
      { p.state with
        isConnected := p.evmConnected || p.solanaConnected || p.tonConnected } }

/-- `connect` of `UnifiedWalletProvider`: set `isConnecting`, clear `error`,
pick `chain || defaultChain`, record it as `activeChain`, persist it under
`<storageKey>-chain`, then clear `isConnecting` and set `state.chain`.
The body never throws (`setStorageItem` swallows storage errors), so the
source's catch arm is dead; no adapter is invoked and `address`, `chainId`
and `isConnected` are left as they were. -/
def connect (cfg : UnifiedConfig) (p : UnifiedState) (env : JsEnv)
    (chain : Option ChainType) : UnifiedState × JsEnv × List Effect :=
  let targetChain := jsOrChain chain cfg.defaultChain
  let st1 := { p.state with isConnecting := true, error := none }
  let key := cfg.storageKey ++ "-chain"
  let env1 := setStorageItemRun env key targetChain
  let st2 := { st1 with isConnecting := false, chain := some targetChain }
  ({ p with state := st2, activeChain := some targetChain }, env1,
   [Effect.storeSet key targetChain])

/-- `disconnect` of `UnifiedWalletProvider`: unconditionally clear the three
flags, reset the state to `DEFAULT_STATE`, clear `activeChain`, remove both
persisted keys, and fire `onDisconnect`; the flag change re-runs the
`isConnected` effect. -/
def disconnect (cfg : UnifiedConfig) (p : UnifiedState) (env : JsEnv) :
    UnifiedState × JsEnv × List Effect :=
  let akey := cfg.storageKey ++ "-address"
  let ckey := cfg.storageKey ++ "-chain"
  let env1 := removeStorageItemRun env akey
  let env2 := removeStorageItemRun env1 ckey
  (syncIsConnected
     { state := DEFAULT_WALLET_STATE, activeChain := none
       evmConnected := false, solanaConnected := false, tonConnected := false },
   env2,
   [Effect.storeRemove akey, Effect.storeRemove ckey, Effect.cbDisconnect])

/-- `switchChain` of `UnifiedWalletProvider`: unconditionally store the new
`chainId` in the state; nothing else happens. -/
def switchChain (p : UnifiedState) (chainId : ChainId) : UnifiedState :=
  { p with state := { p.state with chainId := some chainId } }

/-- `signMessage` of `UnifiedWalletProvider`: rejects with
`Wallet not connected` when not connected, otherwise rejects with
`Use chain-specific signer`; the session state is never touched. -/
def signMessage (p : UnifiedState) (message : String) : Except String String :=
  if !p.state.isConnected then .error "Wallet not connected"
  else .error "Use chain-specific signer"

/-- `sendTransaction` of `UnifiedWalletProvider`: rejects with
`Wallet not connected` when not connected, otherwise rejects with
`Use chain-specific transaction`. -/
def sendTransaction (p : UnifiedState) (toAddr value : String)
    (data : Option String) : Except String String :=
  if !p.state.isConnected then .error "Wallet not connected"
  else .error "Use chain-specific transaction"

/-- The auto-connect `useEffect` of `UnifiedWalletProvider`: when enabled,
read `<storageKey>-chain` through the guarded helper and, if the saved value
is truthy, call `connect(savedChain)`. -/
def autoConnect (cfg : UnifiedConfig) (p : UnifiedState) (env : JsEnv) :
    UnifiedState × JsEnv × List Effect :=
  if cfg.autoConnect then
    match getStorageItemRun env (cfg.storageKey ++ "-chain") with
    | some c => if c = "" then (p, env, []) else connect cfg p env (some c)
    | none => (p, env, [])
  else (p, env, [])

/-- `formatAddress` exported by the unified provider file: empty in, empty
out; otherwise always a `(chars + 2)`-character head, `...`, and a
`chars`-character tail — with no short-address guard. -/
def formatAddress (address : List Char) (chars : Nat) : List Char :=
  if address = [] then []
  else jsSliceFrom0 address (chars + 2) ++ dotsChars ++ jsSliceNeg address chars

end UnifiedWalletProvider

/-- Props of `WalletProvider` (`src/core/provider.tsx`) that its handlers
read (callbacks are traced as effects). -/
structure CoreConfig where
  autoConnect : Bool
  storageKey : String
  deriving DecidableEq

/-- React state of `WalletProvider`: the `WalletState` and the `activeChain`
cell (no per-chain flags in this file). -/
structure CoreState where
  state : WalletState
  activeChain : Option ChainType
  deriving DecidableEq

/-- The core provider mounts with `DEFAULT_STATE` and no active chain. -/
def CoreState.init : CoreState :=
  { state := DEFAULT_WALLET_STATE, activeChain := none }

namespace WalletProvider

/-- `localStorage?.getItem(key)`: optional chaining yields `undefined`
(absent) without `window`; a failing backend throws out of the call. -/
def rawGetItem (env : JsEnv) (key : String) : Except String (Option String) :=
  match env.window with
  | none => .ok none
  | some b => localStorage.getItem b key

/-- `localStorage?.removeItem(key)`: no-op without `window`; a failing
backend throws out of the call. -/
def rawRemoveItem (env : JsEnv) (key : String) : Except String JsEnv :=
  match env.window with
  | none => .ok env
  | some b =>
    match localStorage.removeItem b key with
    | .ok b2 => .ok { window := some b2 }
    | .error e => .error e

/-- `connect` of `WalletProvider`: set `isConnecting`, clear `error`; with a
truthy chain argument record it as `activeChain` and persist it under
`<storageKey>-chain`; with no (or a falsy) argument read the saved chain from
raw `localStorage` and, if truthy, restore it as `activeChain`.  Finally
clear `isConnecting`.  A storage throw on the restore path is caught: the
state keeps `isConnecting := false` with the error message, and `onError`
fires.  No adapter is invoked; `isConnected`, `address`, `chainId` and
`state.chain` are never written. -/
def connect (cfg : CoreConfig) (p : CoreState) (env : JsEnv)
    (chain : Option ChainType) : CoreState × JsEnv × List Effect :=
  let st1 := { p.state with isConnecting := true, error := none }
  if truthyStr chain then
    let c := jsOrChain chain ""
    let key := cfg.storageKey ++ "-chain"
    let env1 := setStorageItemRun env key c
    ({ p with state := { st1 with isConnecting := false }, activeChain := some c },
     env1, [Effect.storeSet key c])
  else
    match rawGetItem env (cfg.storageKey ++ "-chain") with
    | .ok saved =>
      let p2 := if truthyStr saved then { p with activeChain := saved } else p
      ({ p2 with state := { st1 with isConnecting := false } }, env, [])
    | .error e =>
      ({ p with state := { st1 with isConnecting := false, error := some e } },
       env, [Effect.cbError e])

/-- `disconnect` of `WalletProvider`: unconditionally reset the state to
`DEFAULT_STATE`, clear `activeChain`, remove both persisted keys through raw
`localStorage`, and fire `onDisconnect`; a storage throw is caught and only
logged, skipping the remaining removals and the callback. -/
def disconnect (cfg : CoreConfig) (p : CoreState) (env : JsEnv) :
    CoreState × JsEnv × List Effect :=
  let akey := cfg.storageKey ++ "-address"
  let ckey := cfg.storageKey ++ "-chain"
  match rawRemoveItem env akey with
  | .error _ => (CoreState.init, env, [])
  | .ok env1 =>
    match rawRemoveItem env1 ckey with
    | .error _ => (CoreState.init, env1, [Effect.storeRemove akey])
    | .ok env2 =>
      (CoreState.init, env2,
       [Effect.storeRemove akey, Effect.storeRemove ckey, Effect.cbDisconnect])

/-- `switchChain` of `WalletProvider`: unconditionally store the new
`chainId` in the state; nothing else happens. -/
def switchChain (p : CoreState) (chainId : ChainId) : CoreState :=
  { p with state := { p.state with chainId := some chainId } }

/-- `signMessage` of `WalletProvider`: rejects with `Wallet not connected`
when not connected, otherwise resolves with the empty string (the signing
itself is unimplemented); the session state is never touched. -/
def signMessage (p : CoreState) (message : String) : Except String String :=
  if !p.state.isConnected then .error "Wallet not connected"
  else .ok ""

/-- `sendTransaction` of `WalletProvider`: rejects with
`Wallet not connected` when not connected, otherwise resolves with the empty
string. -/
def sendTransaction (p : CoreState) (toAddr value : String)
    (data : Option String) : Except String String :=
  if !p.state.isConnected then .error "Wallet not connected"
  else .ok ""

/-- The auto-connect `useEffect` of `WalletProvider`: when enabled, read
`<storageKey>-address` from raw `localStorage` and, if the saved address is
truthy, call `connect()` with no chain argument; a storage throw escapes the
effect uncaught. -/
def autoConnect (cfg : CoreConfig) (p : CoreState) (env : JsEnv) :
    Except String (CoreState × JsEnv × List Effect) :=
  if cfg.autoConnect then
    match rawGetItem env (cfg.storageKey ++ "-address") with
    | .error e => .error e
    | .ok saved =>
      if truthyStr saved then .ok (connect cfg p env none)
      else .ok (p, env, [])
  else .ok (p, env, [])

end WalletProvider

/-! Concrete fixtures used by the claim theorems. -/

/-- The default configuration of the unified provider
(`autoConnect: false`, `storageKey: 'unichain-wallet'`, `defaultChain: 'evm'`). -/
def cfgU0 : UnifiedConfig :=
  { autoConnect := false, storageKey := "unichain-wallet", defaultChain := "evm" }

/-- The unified provider defaults with `autoConnect: true`. -/
def cfgU1 : UnifiedConfig :=
  { autoConnect := true, storageKey := "unichain-wallet", defaultChain := "evm" }

/-- The core provider defaults with `autoConnect: true`. -/
def cfgC1 : CoreConfig := { autoConnect := true, storageKey := "unichain-wallet" }

/-- A browser environment with a working, empty `localStorage`. -/
def envEmpty : JsEnv :=
  { window := some { items := [], failing := false, failMsg := "storage failure" } }

/-- A browser environment whose working storage persists only the chain key
`unichain-wallet-chain = ton` (no address hint). -/
def envTonOnly : JsEnv :=
  { window := some { items := [("unichain-wallet-chain", "ton")]
                     failing := false, failMsg := "storage failure" } }

/-- A unified-provider state with a `connect` in flight
(`isConnecting = true`, intent `evm` already claimed). -/
def inFlightU : UnifiedState :=
  { UnifiedState.init with
    state := { DEFAULT_WALLET_STATE with isConnecting := true }
    activeChain := some "evm" }

/-- A unified-provider state whose status is Connected
(`isConnected = true`, an address and active chain present). -/
def connectedU : UnifiedState :=
  { UnifiedState.init with
    state := { DEFAULT_WALLET_STATE with
               isConnected := true, address := some "0xABC", chain := some "evm" }
    activeChain := some "evm", evmConnected := true }

/-- A core-provider state whose status is Connected. -/
def connectedC : CoreState :=
  { CoreState.init with
    state := { DEFAULT_WALLET_STATE with
               isConnected := true, address := some "0xABC", chain := some "evm" }
    activeChain := some "evm" }

/-- C1: the claimed invariant `(address set) ⇔ (activeChainFamily set) ⇔
(status Connected)` is broken by the code at a reachable state: one
`connect('evm')` call from the initial Disconnected state sets the active
chain family (`activeChain` and `state.chain` both `'evm'`) while leaving
`address = null` and `isConnected = false` — the stub connect never invokes
an adapter, so the chain-family field is set without the other two. -/
theorem c1_connect_sets_chain_without_address_or_connected :
    (UnifiedWalletProvider.connect cfgU0 UnifiedState.init envEmpty
        (some "evm")).1.activeChain = some "evm"
    ∧ (UnifiedWalletProvider.connect cfgU0 UnifiedState.init envEmpty
        (some "evm")).1.state.chain = some "evm"
    ∧ (UnifiedWalletProvider.connect cfgU0 UnifiedState.init envEmpty
        (some "evm")).1.state.address = none
    ∧ (UnifiedWalletProvider.connect cfgU0 UnifiedState.init envEmpty
        (some "evm")).1.state.isConnected = false := by
  decide

/-- C2: there is no `AlreadyConnecting` guard: a `connect('solana')` call on
a state with `isConnecting = true` (an in-flight `connect('evm')`) proceeds
unconditionally — it overwrites the in-flight `activeChain` with `'solana'`,
writes the persisted chain key, and resets `isConnecting` — instead of
failing with `AlreadyConnecting` and leaving the in-flight state unchanged. -/
theorem c2_connect_while_connecting_proceeds :
    inFlightU.state.isConnecting = true
    ∧ (UnifiedWalletProvider.connect cfgU0 inFlightU envEmpty
        (some "solana")).1.activeChain = some "solana"
    ∧ (UnifiedWalletProvider.connect cfgU0 inFlightU envEmpty
        (some "solana")).1.state.isConnecting = false
    ∧ (UnifiedWalletProvider.connect cfgU0 inFlightU envEmpty
        (some "solana")).2.2
      = [Effect.storeSet "unichain-wallet-chain" "solana"] := by
  decide

/-- C3: `connect('evm')` from the fresh default session with working empty
storage ends with `isConnected = false`, `address = null` and
`chainId = null` (only `state.chain = 'evm'` is set), and persists only the
`unichain-wallet-chain` key — not the address hint — because the stub never
invokes an adapter; the claimed final Connected state
`{status: Connected, address: '0xABC', chainId: 1}` is never produced. -/
theorem c3_connect_fresh_does_not_reach_connected :
    (UnifiedWalletProvider.connect cfgU0 UnifiedState.init envEmpty
        (some "evm")).1.state.isConnected = false
    ∧ (UnifiedWalletProvider.connect cfgU0 UnifiedState.init envEmpty
        (some "evm")).1.state.address = none
    ∧ (UnifiedWalletProvider.connect cfgU0 UnifiedState.init envEmpty
        (some "evm")).1.state.chainId = none
    ∧ getStorageItemRun (UnifiedWalletProvider.connect cfgU0 UnifiedState.init
        envEmpty (some "evm")).2.1 "unichain-wallet-chain" = some "evm"
    ∧ getStorageItemRun (UnifiedWalletProvider.connect cfgU0 UnifiedState.init
        envEmpty (some "evm")).2.1 "unichain-wallet-address" = none := by
  decide

/-- C4: the NotConnected guard half of the claim holds (both operations
reject with `Wallet not connected` when not connected, and the embedded
operations are pure in the session state), but the delegation half fails:
at a Connected state the unified provider rejects with
`Use chain-specific signer` / `Use chain-specific transaction` and the core
provider resolves with the empty string — neither delegates to any adapter. -/
theorem c4_sign_send_guard_but_no_delegation :
    UnifiedWalletProvider.signMessage UnifiedState.init "hello"
      = .error "Wallet not connected"
    ∧ UnifiedWalletProvider.sendTransaction UnifiedState.init "0xdead" "1" none
      = .error "Wallet not connected"
    ∧ WalletProvider.signMessage CoreState.init "hello"
      = .error "Wallet not connected"
    ∧ WalletProvider.sendTransaction CoreState.init "0xdead" "1" none
      = .error "Wallet not connected"
    ∧ UnifiedWalletProvider.signMessage connectedU "hello"
      = .error "Use chain-specific signer"
    ∧ UnifiedWalletProvider.sendTransaction connectedU "0xdead" "1" none
      = .error "Use chain-specific transaction"
    ∧ WalletProvider.signMessage connectedC "hello" = .ok ""
    ∧ WalletProvider.sendTransaction connectedC "0xdead" "1" none = .ok "" := by
  exact ⟨rfl, rfl, rfl, rfl, rfl, rfl, rfl, rfl⟩

/-- C5: `switchChain(137)` called at the default Disconnected state does not
fail `NotConnected` — there is no guard — and it mutates the session state,
unconditionally setting `chainId := 137`, in both providers. -/
theorem c5_switchChain_disconnected_mutates_state :
    UnifiedState.init.state.isConnected = false
    ∧ (UnifiedWalletProvider.switchChain UnifiedState.init
        (ChainId.num 137)).state.chainId = some (ChainId.num 137)
    ∧ UnifiedWalletProvider.switchChain UnifiedState.init (ChainId.num 137)
        ≠ UnifiedState.init
    ∧ (WalletProvider.switchChain CoreState.init
        (ChainId.num 137)).state.chainId = some (ChainId.num 137)
    ∧ WalletProvider.switchChain CoreState.init (ChainId.num 137)
        ≠ CoreState.init := by
  decide

/-- C6 counterexample: the claim "disconnect() when already Disconnected is
a no-op with no observable side effect" is false at a concrete input.  The
state reached by `switchChain(137)` from the initial state is Disconnected
(`isConnected = false`, `isConnecting = false`), yet `disconnect()` there
changes the state (the residual `chainId` is reset) and fires observable
side effects: both storage removals are issued and the `onDisconnect`
callback is invoked. -/
theorem c6_disconnect_when_disconnected_not_noop :
    (UnifiedWalletProvider.switchChain UnifiedState.init
        (ChainId.num 137)).state.isConnected = false
    ∧ (UnifiedWalletProvider.switchChain UnifiedState.init
        (ChainId.num 137)).state.isConnecting = false
    ∧ (UnifiedWalletProvider.disconnect cfgU0
        (UnifiedWalletProvider.switchChain UnifiedState.init (ChainId.num 137))
        envEmpty).1
      ≠ UnifiedWalletProvider.switchChain UnifiedState.init (ChainId.num 137)
    ∧ Effect.cbDisconnect ∈
      (UnifiedWalletProvider.disconnect cfgU0
        (UnifiedWalletProvider.switchChain UnifiedState.init (ChainId.num 137))
        envEmpty).2.2
    ∧ Effect.storeRemove "unichain-wallet-chain" ∈
      (UnifiedWalletProvider.disconnect cfgU0
        (UnifiedWalletProvider.switchChain UnifiedState.init (ChainId.num 137))
        envEmpty).2.2 := by
  decide

/-- C6 amended: `disconnect()` is unconditional — from every state (in
particular when already Disconnected) it resets the session to the initial
default state, issues removal of both persisted keys, and fires the
`onDisconnect` callback; no adapter method is invoked (the provider makes no
adapter calls at all).  Calling it when already Disconnected therefore still
produces these side effects, and changes the state whenever residual fields
such as `chainId` are set. -/
theorem c6_amended_disconnect_unconditional
    (cfg : UnifiedConfig) (p : UnifiedState) (env : JsEnv) :
    UnifiedWalletProvider.disconnect cfg p env =
      (UnifiedState.init,
       removeStorageItemRun
         (removeStorageItemRun env (cfg.storageKey ++ "-address"))
         (cfg.storageKey ++ "-chain"),
       [Effect.storeRemove (cfg.storageKey ++ "-address"),
        Effect.storeRemove (cfg.storageKey ++ "-chain"),
        Effect.cbDisconnect]) := rfl

/-- C7: after `connect('evm')` with working storage the persisted intent
read back is only `{chain: 'evm'}` — the `unichain-wallet-address` key is
never written, so the read-back intent does not equal the claimed pair of
chain family and address; the disconnect half does hold: after a subsequent
`disconnect()` both persisted keys are absent. -/
theorem c7_persisted_intent_lacks_address :
    getStorageItemRun (UnifiedWalletProvider.connect cfgU0 UnifiedState.init
        envEmpty (some "evm")).2.1 "unichain-wallet-chain" = some "evm"
    ∧ getStorageItemRun (UnifiedWalletProvider.connect cfgU0 UnifiedState.init
        envEmpty (some "evm")).2.1 "unichain-wallet-address" = none
    ∧ getStorageItemRun
        (UnifiedWalletProvider.disconnect cfgU0
          (UnifiedWalletProvider.connect cfgU0 UnifiedState.init envEmpty
            (some "evm")).1
          (UnifiedWalletProvider.connect cfgU0 UnifiedState.init envEmpty
            (some "evm")).2.1).2.1
        "unichain-wallet-chain" = none
    ∧ getStorageItemRun
        (UnifiedWalletProvider.disconnect cfgU0
          (UnifiedWalletProvider.connect cfgU0 UnifiedState.init envEmpty
            (some "evm")).1
          (UnifiedWalletProvider.connect cfgU0 UnifiedState.init envEmpty
            (some "evm")).2.1).2.1
        "unichain-wallet-address" = none := by
  decide

/-- C8: the guarded storage helpers never throw — for every environment and
key/value they return `.ok`; without `window` (no durable storage) the read
returns absent (`null`) and the write/remove return silently with the
environment unchanged; and with a raising storage backend the read likewise
returns absent and the write/remove leave the environment unchanged. -/
theorem c8_storage_helpers_never_throw
    (env : JsEnv) (key value : String) :
    (∃ v, getStorageItem env key = .ok v)
    ∧ (∃ e, setStorageItem env key value = .ok e)
    ∧ (∃ e, removeStorageItem env key = .ok e)
    ∧ (env.window = none →
        getStorageItem env key = .ok none
        ∧ setStorageItem env key value = .ok env
        ∧ removeStorageItem env key = .ok env)
    ∧ (∀ b : Backend, env.window = some b → b.failing = true →
        getStorageItem env key = .ok none
        ∧ setStorageItem env key value = .ok env
        ∧ removeStorageItem env key = .ok env) := by
  obtain ⟨w⟩ := env
  cases w with
  | none =>
    refine ⟨⟨none, rfl⟩, ⟨_, rfl⟩, ⟨_, rfl⟩, fun _ => ⟨rfl, rfl, rfl⟩, ?_⟩
    intro b hb
    exact absurd hb (by simp)
  | some b =>
    by_cases hf : b.failing
    · refine ⟨⟨none, ?_⟩, ⟨{ window := some b }, ?_⟩,
        ⟨{ window := some b }, ?_⟩, ?_, ?_⟩
      · simp [getStorageItem, localStorage.getItem, hf]
      · simp [setStorageItem, localStorage.setItem, hf]
      · simp [removeStorageItem, localStorage.removeItem, hf]
      · intro h; exact absurd h (by simp)
      · intro b2 hb2 _
        have hbb : b2 = b := by
          have := hb2
          simp only [Option.some.injEq] at this
          exact this.symm
        subst hbb
        exact ⟨by simp [getStorageItem, localStorage.getItem, hf],
               by simp [setStorageItem, localStorage.setItem, hf],
               by simp [removeStorageItem, localStorage.removeItem, hf]⟩
    · refine ⟨⟨JsStore.get b.items key, ?_⟩,
        ⟨{ window := some { b with items := JsStore.set b.items key value } }, ?_⟩,
        ⟨{ window := some { b with items := JsStore.remove b.items key } }, ?_⟩,
        ?_, ?_⟩
      · simp [getStorageItem, localStorage.getItem, hf]
      · simp [setStorageItem, localStorage.setItem, hf]
      · simp [removeStorageItem, localStorage.removeItem, hf]
      · intro h; exact absurd h (by simp)
      · intro b2 hb2 hf2
        have hbb : b2 = b := by
          have := hb2
          simp only [Option.some.injEq] at this
          exact this.symm
        subst hbb
        exact absurd hf2 (by simp [hf])

/-- C8 witness: the helpers evaluated in a window-less environment and in a
raising-backend environment, via the main theorem. -/
theorem c8_storage_helpers_never_throw_witness :
    (getStorageItem { window := none } "k" = .ok none
      ∧ setStorageItem { window := none } "k" "v" = .ok { window := none }
      ∧ removeStorageItem { window := none } "k" = .ok { window := none })
    ∧ getStorageItem
        { window := some { items := [], failing := true, failMsg := "boom" } }
        "k" = .ok none := by
  constructor
  · exact (c8_storage_helpers_never_throw { window := none } "k" "v").2.2.2.1 rfl
  · exact ((c8_storage_helpers_never_throw
      { window := some { items := [], failing := true, failMsg := "boom" } }
      "k" "v").2.2.2.2
      { items := [], failing := true, failMsg := "boom" } rfl rfl).1

/-- C9 counterexample: the claim fails on the core provider's auto-connect
effect.  With auto-connect enabled and a persisted chain family present
(`unichain-wallet-chain = ton`, no address hint), the core sequencer invokes
nothing at all — state, storage and effect trace are unchanged — because it
gates on the `unichain-wallet-address` key, not on the persisted chain
family; the claim says `connect` must be invoked with the persisted family. -/
theorem c9_core_sequencer_ignores_persisted_chain :
    getStorageItemRun envTonOnly "unichain-wallet-chain" = some "ton"
    ∧ WalletProvider.autoConnect cfgC1 CoreState.init envTonOnly
      = .ok (CoreState.init, envTonOnly, []) := by
  exact ⟨rfl, rfl⟩

/-- C9 amended: the two auto-connect sequencers gate differently.  The
unified provider's sequencer behaves as claimed: with auto-connect enabled it
reads the persisted chain key and, whenever a non-empty chain family is
persisted, invokes `connect` with exactly that family, invoking nothing when
the key is absent.  The core provider's sequencer instead gates on the
persisted address hint: whenever a non-empty address hint is persisted it
invokes `connect` with no chain argument (connect then restores the family
from the chain key itself), and it invokes nothing when the address hint is
absent — even if a chain family is persisted. -/
theorem c9_amended_sequencer_gating
    (cfg : UnifiedConfig) (p : UnifiedState) (cfgc : CoreConfig)
    (q : CoreState) (env : JsEnv) (c a : String) :
    (cfg.autoConnect = true →
      getStorageItemRun env (cfg.storageKey ++ "-chain") = some c → c ≠ "" →
      UnifiedWalletProvider.autoConnect cfg p env
        = UnifiedWalletProvider.connect cfg p env (some c))
    ∧ (cfg.autoConnect = true →
      getStorageItemRun env (cfg.storageKey ++ "-chain") = none →
      UnifiedWalletProvider.autoConnect cfg p env = (p, env, []))
    ∧ (cfgc.autoConnect = true →
      WalletProvider.rawGetItem env (cfgc.storageKey ++ "-address")
        = .ok (some a) → a ≠ "" →
      WalletProvider.autoConnect cfgc q env
        = .ok (WalletProvider.connect cfgc q env none))
    ∧ (cfgc.autoConnect = true →
      WalletProvider.rawGetItem env (cfgc.storageKey ++ "-address") = .ok none →
      WalletProvider.autoConnect cfgc q env = .ok (q, env, [])) := by
  refine ⟨?_, ?_, ?_, ?_⟩
  · intro h hm hc
    simp [UnifiedWalletProvider.autoConnect, h, hm, hc]
  · intro h hm
    simp [UnifiedWalletProvider.autoConnect, h, hm]
  · intro h hm ha
    simp [WalletProvider.autoConnect, h, hm, truthyStr, ha]
  · intro h hm
    simp [WalletProvider.autoConnect, h, hm, truthyStr]

/-- C9 amended witness: the gating theorem applied at a concrete environment
persisting only the chain key `ton`: the unified sequencer connects with
`ton`; the core sequencer invokes nothing. -/
theorem c9_amended_sequencer_gating_witness :
    UnifiedWalletProvider.autoConnect cfgU1 UnifiedState.init envTonOnly
      = UnifiedWalletProvider.connect cfgU1 UnifiedState.init envTonOnly
          (some "ton")
    ∧ WalletProvider.autoConnect cfgC1 CoreState.init envTonOnly
      = .ok (CoreState.init, envTonOnly, []) := by
  constructor
  · exact (c9_amended_sequencer_gating cfgU1 UnifiedState.init cfgC1
      CoreState.init envTonOnly "ton" "x").1 rfl (by decide) (by decide)
  · exact (c9_amended_sequencer_gating cfgU1 UnifiedState.init cfgC1
      CoreState.init envTonOnly "ton" "x").2.2.2 rfl rfl

/-- C10 counterexample: the two exported `formatAddress` implementations are
not extensionally equal: at the address `0xABCDEF1234` with `chars = 4` the
adapter version yields `0xAB...1234` while the unified version yields
`0xABCD...1234`. -/
theorem c10_formatAddress_implementations_differ :
    formatAddress ("0xABCDEF1234".toList) 4
      ≠ UnifiedWalletProvider.formatAddress ("0xABCDEF1234".toList) 4 := by
  decide

/-- C10 amended: the two implementations agree exactly on the empty address.
For every nonempty address they differ: the adapter version returns the
address unchanged when its length is at most `chars * 2` and otherwise uses
a `chars`-character head, while the unified version always truncates with a
`(chars + 2)`-character head and has no short-address guard. -/
theorem c10_amended_formatAddress_agree_iff_empty
    (address : List Char) (chars : Nat) :
    formatAddress address chars
      = UnifiedWalletProvider.formatAddress address chars
    ↔ address = [] := by
  constructor
  · intro h
    by_contra hne
    have hpos : 0 < address.length := List.length_pos.mpr hne
    have hlen := congrArg List.length h
    simp only [formatAddress, UnifiedWalletProvider.formatAddress,
      jsSliceFrom0, jsSliceNeg, dotsChars, if_neg hne] at hlen
    split_ifs at hlen <;>
      simp only [List.length_append, List.length_take, List.length_drop,
        List.length_cons, List.length_nil] at hlen <;>
      omega
  · intro h
    subst h
    rfl
